import Mathlib

/-!
Shallow embedding of the execution core of the trading agent
(`src/trade_executor.py`, `src/position_tracker.py`,
`src/strategies/cross_exchange_arbitrage_strategy.py`), with theorems
settling the behavioural claims about order lifecycle, position risk
management, reconciliation and routing guards.

Python floats are modelled as exact rationals (`ℚ`); Python dicts keyed by
strings are modelled extensionally as `String → Option _`; `dict.get`'s
defaulting is mirrored by explicit getter functions.  Wall-clock times and
the hash-generated order ids are nondeterministic inputs of the Python
code and are passed in as explicit parameters.
-/

set_option maxHeartbeats 1000000
set_option linter.unusedVariables false

-- Order states, the integer constants of `class OrderState`
-- (trade_executor.py lines 13-18).
namespace OrderState

def PENDING : Nat := 1

def PARTIALLY_FILLED : Nat := 2

def FILLED : Nat := 3

def CANCELLED : Nat := 4

def REJECTED : Nat := 5

end OrderState

/-- `Order` (trade_executor.py lines 21-41).  `price` is `Optional[float]`. -/
structure Order where
  order_id : String
  symbol : String
  side : String
  order_type : String
  quantity : ℚ
  filled_quantity : ℚ
  price : Option ℚ
  strategy_id : String
  state : Nat
  timestamp : ℚ
  last_update : ℚ
deriving DecidableEq, Repr

/-- `Order.__init__` (trade_executor.py lines 22-41).  `generate_id` hashes
the wall clock, so the id and the creation time are parameters here. -/
def mkOrder (order_id : String) (now : ℚ) (symbol side order_type : String)
    (quantity : ℚ) (price : Option ℚ) (strategy_id : String) : Order :=
  { order_id := order_id
    symbol := symbol
    side := side
    order_type := order_type
    quantity := quantity
    filled_quantity := 0
    price := price
    strategy_id := strategy_id
    state := OrderState.PENDING
    timestamp := now
    last_update := now }

/-- `Order.update_fill` (trade_executor.py lines 48-54): adds `fill_qty`
to `filled_quantity` unconditionally, stamps `last_update`, and sets the
state to FILLED when the running total is within `1e-6` of `quantity`,
otherwise to PARTIALLY_FILLED.  `fill_price` is accepted but unused, as in
the source. -/
def Order.update_fill (o : Order) (fill_qty fill_price now : ℚ) : Order :=
  { o with
    filled_quantity := o.filled_quantity + fill_qty
    last_update := now
    state :=
      if |o.filled_quantity + fill_qty - o.quantity| < 1 / 1000000 then
        OrderState.FILLED
      else
        OrderState.PARTIALLY_FILLED }

theorem Order.update_fill_quantity (o : Order) (a b c : ℚ) :
    (o.update_fill a b c).quantity = o.quantity := rfl

theorem Order.update_fill_filled (o : Order) (a b c : ℚ) :
    (o.update_fill a b c).filled_quantity = o.filled_quantity + a := rfl

/-- A concrete fresh limit order of quantity 1, used as test input. -/
def limitOrderA : Order := mkOrder "oid1" 0 "BTCUSD" "buy" "limit" 1 (some 100) "s1"

/-- **C2, counterexample.**  `update_fill` performs no validation: a call
with a negative `fill_qty` drives `filled_quantity` below 0 and strictly
decreases it, so `0 ≤ filled_quantity` and monotone non-decrease do not
hold across every call to `update_fill`. -/
theorem c2_counterexample :
    (limitOrderA.update_fill (-1) 100 1).filled_quantity = -1 ∧
      (limitOrderA.update_fill (-1) 100 1).filled_quantity < 0 ∧
      (limitOrderA.update_fill (-1) 100 1).filled_quantity < limitOrderA.filled_quantity := by
  refine ⟨?_, ?_, ?_⟩ <;> norm_num [limitOrderA, Order.update_fill, mkOrder]

/-- **C2, amended.**  A freshly constructed order starts at
`filled_quantity = 0`, and `update_fill` preserves
`0 ≤ filled_quantity ≤ quantity` and is non-decreasing provided the
applied fill is non-negative and does not overfill
(`filled_quantity + fill_qty ≤ quantity`); `update_fill` itself never
validates these bounds. -/
theorem c2_amended (o : Order) (fq fp now : ℚ)
    (h0 : 0 ≤ o.filled_quantity) (hfq : 0 ≤ fq)
    (hle : o.filled_quantity + fq ≤ o.quantity) :
    (∀ oid t sym sd ty q pr sid, (mkOrder oid t sym sd ty q pr sid).filled_quantity = 0) ∧
      0 ≤ (o.update_fill fq fp now).filled_quantity ∧
      (o.update_fill fq fp now).filled_quantity ≤ (o.update_fill fq fp now).quantity ∧
      o.filled_quantity ≤ (o.update_fill fq fp now).filled_quantity := by
  refine ⟨fun _ _ _ _ _ _ _ _ => rfl, ?_, ?_, ?_⟩
  · simpa [Order.update_fill] using add_nonneg h0 hfq
  · simpa [Order.update_fill] using hle
  · simp [Order.update_fill]
    linarith

/-- Witness for `c2_amended` at a concrete order and fill. -/
theorem c2_amended_witness :
    0 ≤ limitOrderA.filled_quantity ∧ (0 : ℚ) ≤ 1 / 2 ∧
      limitOrderA.filled_quantity + 1 / 2 ≤ limitOrderA.quantity ∧
      0 ≤ (limitOrderA.update_fill (1 / 2) 100 1).filled_quantity := by
  have h := c2_amended limitOrderA (1 / 2) 100 1 (by norm_num [limitOrderA, mkOrder])
    (by norm_num) (by norm_num [limitOrderA, mkOrder])
  exact ⟨by norm_num [limitOrderA, mkOrder], by norm_num, by norm_num [limitOrderA, mkOrder], h.2.1⟩

-- ------------------------------------------------------------------
-- PhemexTradeExecutor (trade_executor.py lines 63-256).
-- `active_orders: Dict[str, Order]` is modelled extensionally as a
-- function `String → Option Order`; the `PriorityQueue` is modelled as
-- the list of (priority, order) pairs it holds, `put` appending.
-- ------------------------------------------------------------------

/-- The mutable state of a `PhemexTradeExecutor`: the active-order map and
the submission queue (trade_executor.py lines 68-69). -/
structure ExecState where
  active_orders : String → Option Order
  order_queue : List (ℚ × Order)

/-- Python `str.lower()` (ASCII), structurally recursive so that concrete
instances reduce. -/
def lowerStr (s : String) : String := String.mk (s.data.map Char.toLower)

/-- In-place mutation of a Python `Order` object that is aliased from
`active_orders`: storing the updated order back under its id. -/
def store (s : ExecState) (o : Order) : ExecState :=
  { s with active_orders := fun id => if id = o.order_id then some o else s.active_orders id }

/-- `PhemexTradeExecutor.submit_order` (trade_executor.py lines 83-96):
rejects a duplicate order id with `False`, otherwise records the order in
`active_orders` and enqueues it with its timestamp as priority. -/
def submit_order (s : ExecState) (o : Order) : Bool × ExecState :=
  if (s.active_orders o.order_id).isSome then
    (false, s)
  else
    (true,
      { active_orders := fun id => if id = o.order_id then some o else s.active_orders id
        order_queue := s.order_queue ++ [(o.timestamp, o)] })

/-- `PhemexTradeExecutor.cancel_order` (trade_executor.py lines 216-230):
looks the order up; when it exists and its state is neither FILLED nor
CANCELLED, attempts the venue cancel and — when that call succeeds
(`apiOk`) — sets the state to CANCELLED; returns `True` in that branch
even when the venue call failed, `False` otherwise. -/
def cancel_order (s : ExecState) (order_id : String) (apiOk : Bool) : Bool × ExecState :=
  match s.active_orders order_id with
  | some o =>
    if o.state ≠ OrderState.FILLED ∧ o.state ≠ OrderState.CANCELLED then
      (true, if apiOk then store s { o with state := OrderState.CANCELLED } else s)
    else
      (false, s)
  | none => (false, s)

/-- `PhemexTradeExecutor.get_order_state` (trade_executor.py lines
247-256): `(state, filled_quantity)` of the active order, or
`(CANCELLED, 0.0)` when the id is unknown. -/
def get_order_state (s : ExecState) (order_id : String) : Nat × ℚ :=
  match s.active_orders order_id with
  | some o => (o.state, o.filled_quantity)
  | none => (OrderState.CANCELLED, 0)

/-- Outcome of `PhemexAPI.place_order` as consumed by `execute_order`
(trade_executor.py lines 123-151): `response.get("status")` together with
the optional `avg_price` and, for a partialFill fill, the `filled_qty`
(defaulting to 0.0). -/
inductive ApiResponse where
  | filledResp (avg_price : Option ℚ)
  | partialFill (filled_qty : ℚ) (avg_price : Option ℚ)
  | rejectedResp (error : String)
deriving DecidableEq, Repr

/-- The dispatch price computed at trade_executor.py lines 106-111:
the reference price for a market order, otherwise the limit price with a
side-directed `limit_offset_pct` applied.  (A `None` price on a
non-market order would raise in Python; it is defaulted to 0 here and
never exercised by the theorems.) -/
def order_price_of (o : Order) (refPrice offset : ℚ) : ℚ :=
  if o.order_type = "market" then refPrice
  else (o.price.getD 0) * (1 + offset * (if lowerStr o.side = "buy" then 1 else -1))

/-- `PhemexTradeExecutor.execute_order` (trade_executor.py lines 99-157),
single attempt.  The reference price (market orders) and the
`limit_offset_pct` config value are parameters, as are the id and clock
for the child order a partialFill fill spawns.  A full fill books the whole
quantity; a partialFill fill books `filled_qty` and submits the remainder as a
new order carrying the same strategy tag; a rejection marks the order
REJECTED and returns `False`. -/
def execute_order (s : ExecState) (o : Order) (refPrice offset : ℚ)
    (resp : ApiResponse) (childId : String) (now : ℚ) : Bool × ExecState :=
  let order_price : ℚ := order_price_of o refPrice offset
  match resp with
  | .filledResp avg =>
    (true, store s (o.update_fill o.quantity (avg.getD order_price) now))
  | .partialFill fq avg =>
    let o2 := o.update_fill fq (avg.getD order_price) now
    let s2 := store s o2
    let remaining := o.quantity - fq
    if remaining > 0 then
      (true, (submit_order s2
        (mkOrder childId now o.symbol o.side o.order_type remaining (some order_price)
          o.strategy_id)).2)
    else
      (true, s2)
  | .rejectedResp _ =>
    (false, store s { o with state := OrderState.REJECTED })

/-- The market-order fallback built by `handle_order_failure`
(trade_executor.py lines 238-244). -/
def fallback_of (o : Order) (fid : String) (now : ℚ) : Order :=
  mkOrder fid now o.symbol o.side "market" o.quantity none o.strategy_id

/-- `PhemexTradeExecutor.handle_order_failure` (trade_executor.py lines
232-245): unless the failed order was already a market order
(case-insensitively), submit exactly one market-order fallback. -/
def handle_order_failure (s : ExecState) (o : Order) (fid : String) (now : ℚ) : ExecState :=
  if lowerStr o.order_type ≠ "market" then
    (submit_order s (fallback_of o fid now)).2
  else
    s

/-- One iteration of the worker loop `process_orders` for a dequeued order
(trade_executor.py lines 163-169): only a PENDING order is executed; on
failure `handle_order_failure` runs. -/
def process_order_step (s : ExecState) (o : Order) (refPrice offset : ℚ)
    (resp : ApiResponse) (childId fid : String) (now : ℚ) : ExecState :=
  if o.state = OrderState.PENDING then
    let r := execute_order s o refPrice offset resp childId now
    if r.1 then r.2 else handle_order_failure r.2 o fid now
  else
    s

/-- One iteration of the monitor loop `monitor_orders` for one active
order (trade_executor.py lines 182-214).  A PENDING order older than 30s
is marked CANCELLED (the `cancel_order` call that follows then sees state
CANCELLED and changes nothing).  A PARTIALLY_FILLED order stale for more
than 60s keeps its state; its positive remainder is resubmitted as a
fresh order with the same strategy tag. -/
def monitor_order_step (s : ExecState) (o : Order) (now : ℚ) (staleId : String) : ExecState :=
  if o.state = OrderState.PENDING ∧ now - o.timestamp > 30 then
    store s { o with state := OrderState.CANCELLED }
  else if o.state = OrderState.PARTIALLY_FILLED ∧ now - o.last_update > 60 then
    let remaining := o.quantity - o.filled_quantity
    if remaining > 0 then
      (submit_order s
        (mkOrder staleId now o.symbol o.side o.order_type remaining o.price o.strategy_id)).2
    else
      s
  else
    s

-- ------------------------------------------------------------------
-- C5, C10, C3, C6, C7: theorems about the executor.
-- ------------------------------------------------------------------

/-- **C5, confirmed.**  Submitting an order whose id is already active
returns `False` and leaves the whole executor state (active-order map and
queue) unchanged; and, for any starting state, submitting the same order
twice leaves the same state as submitting it once, so no duplicate
execution occurs. -/
theorem c5_submit_idempotent (s : ExecState) (o : Order)
    (h : (s.active_orders o.order_id).isSome) :
    submit_order s o = (false, s) ∧
      ∀ s2 : ExecState, (submit_order (submit_order s2 o).2 o).2 = (submit_order s2 o).2 := by
  constructor
  · simp [submit_order, h]
  · intro s2
    by_cases h2 : (s2.active_orders o.order_id).isSome
    · simp [submit_order, h2]
    · simp [submit_order, h2]

/-- A concrete executor state holding only `limitOrderA`. -/
def execStateA : ExecState :=
  { active_orders := fun id => if id = "oid1" then some limitOrderA else none
    order_queue := [(0, limitOrderA)] }

/-- Witness for `c5_submit_idempotent`: resubmitting `limitOrderA` to a
state that already holds it is rejected and changes nothing. -/
theorem c5_submit_idempotent_witness :
    (execStateA.active_orders limitOrderA.order_id).isSome ∧
      submit_order execStateA limitOrderA = (false, execStateA) := by
  have h : (execStateA.active_orders limitOrderA.order_id).isSome := by
    simp [execStateA, limitOrderA, mkOrder]
  exact ⟨h, (c5_submit_idempotent execStateA limitOrderA h).1⟩

/-- **C10, confirmed.**  `get_order_state` on an id absent from the
active-order map returns `(CANCELLED, 0.0)` (it never raises), and any
state holding a CANCELLED order with zero fill under that id produces the
identical answer, so the two situations are indistinguishable through
`get_order_state`. -/
theorem c10_get_order_state_missing (s : ExecState) (oid : String)
    (h : s.active_orders oid = none) :
    get_order_state s oid = (OrderState.CANCELLED, 0) ∧
      ∀ (s2 : ExecState) (o : Order), s2.active_orders oid = some o →
        o.state = OrderState.CANCELLED → o.filled_quantity = 0 →
        get_order_state s2 oid = get_order_state s oid := by
  constructor
  · simp [get_order_state, h]
  · intro s2 o h2 hst hfq
    simp [get_order_state, h, h2, hst, hfq]

/-- The executor state with no active orders. -/
def emptyExec : ExecState := { active_orders := fun _ => none, order_queue := [] }

/-- Witness for `c10_get_order_state_missing` on the empty executor. -/
theorem c10_get_order_state_missing_witness :
    emptyExec.active_orders "ghost" = none ∧
      get_order_state emptyExec "ghost" = (OrderState.CANCELLED, 0) := by
  exact ⟨rfl, (c10_get_order_state_missing emptyExec "ghost" rfl).1⟩

/-- A concrete order sitting in state REJECTED. -/
def rejectedOrderA : Order :=
  { mkOrder "r1" 0 "BTCUSD" "sell" "limit" 1 (some 100) "s2" with
    state := OrderState.REJECTED }

/-- A concrete executor state holding only `rejectedOrderA`. -/
def execStateR : ExecState :=
  { active_orders := fun id => if id = "r1" then some rejectedOrderA else none
    order_queue := [] }

/-- **C3, counterexample.**  REJECTED is not preserved: an explicit
`cancel_order` on an order already in the terminal state REJECTED moves
it to CANCELLED (its guard only excludes FILLED and CANCELLED), so the
order leaves a terminal state and reaches a second distinct terminal
state. -/
theorem c3_counterexample :
    rejectedOrderA.state = OrderState.REJECTED ∧
      Option.map Order.state ((cancel_order execStateR "r1" true).2.active_orders "r1")
        = some OrderState.CANCELLED ∧
      OrderState.REJECTED ≠ OrderState.CANCELLED := by
  refine ⟨rfl, ?_, by decide⟩
  simp [cancel_order, execStateR, store, rejectedOrderA, mkOrder, OrderState.FILLED,
    OrderState.CANCELLED, OrderState.REJECTED]

/-- **C3, amended.**  FILLED and CANCELLED are genuinely terminal: no
modelled operation (explicit cancel, monitor sweep, worker execution)
changes an order in either state.  The monitor and the worker also never
touch a REJECTED order.  The exception forced by the counterexample is
`cancel_order`, which moves a REJECTED order to CANCELLED. -/
theorem c3_amended (s : ExecState) (o : Order) (ok : Bool) (now refP off : ℚ)
    (resp : ApiResponse) (sid cid fid : String)
    (h : o.state = OrderState.FILLED ∨ o.state = OrderState.CANCELLED) :
    (s.active_orders o.order_id = some o → (cancel_order s o.order_id ok).2 = s) ∧
      monitor_order_step s o now sid = s ∧
      process_order_step s o refP off resp cid fid now = s ∧
      ∀ o2 : Order, o2.state = OrderState.REJECTED →
        monitor_order_step s o2 now sid = s ∧
        process_order_step s o2 refP off resp cid fid now = s := by
  refine ⟨?_, ?_, ?_, ?_⟩
  · intro hl
    rcases h with h | h <;>
      simp [cancel_order, hl, h, OrderState.FILLED, OrderState.CANCELLED]
  · rcases h with h | h <;>
      simp [monitor_order_step, h, OrderState.FILLED, OrderState.CANCELLED,
        OrderState.PENDING, OrderState.PARTIALLY_FILLED]
  · rcases h with h | h <;>
      simp [process_order_step, h, OrderState.FILLED, OrderState.CANCELLED,
        OrderState.PENDING]
  · intro o2 h2
    constructor
    · simp [monitor_order_step, h2, OrderState.REJECTED, OrderState.PENDING,
        OrderState.PARTIALLY_FILLED]
    · simp [process_order_step, h2, OrderState.REJECTED, OrderState.PENDING]

/-- A concrete FILLED order. -/
def filledOrderA : Order :=
  { mkOrder "f1" 0 "BTCUSD" "buy" "limit" 1 (some 100) "s3" with
    state := OrderState.FILLED
    filled_quantity := 1 }

/-- Witness for `c3_amended`: a FILLED order is untouched by the monitor
sweep. -/
theorem c3_amended_witness :
    (filledOrderA.state = OrderState.FILLED ∨ filledOrderA.state = OrderState.CANCELLED) ∧
      monitor_order_step emptyExec filledOrderA 100 "n1" = emptyExec := by
  have h : filledOrderA.state = OrderState.FILLED ∨
      filledOrderA.state = OrderState.CANCELLED := Or.inl rfl
  exact ⟨h, (c3_amended emptyExec filledOrderA true 100 0 0
    (ApiResponse.rejectedResp "e") "n1" "c1" "fb1" h).2.1⟩

/-- **C6, confirmed.**  A partial fill of `0 < Q1 < Q` makes
`execute_order` succeed, enqueue exactly one child order — of quantity
`Q − Q1`, carrying the same strategy tag — and leave the original order's
`quantity` field unmutated in the active map; the child's quantity plus
the booked fill equals `Q`, so the fill chain conserves quantity. -/
theorem c6_partial_fill_conservation (s : ExecState) (o : Order)
    (refP off fq avg now : ℚ) (cid : String)
    (h1 : 0 < fq) (h2 : fq < o.quantity)
    (hcid : cid ≠ o.order_id) (hfresh : s.active_orders cid = none) :
    (execute_order s o refP off (ApiResponse.partialFill fq (some avg)) cid now).1 = true ∧
      (execute_order s o refP off (ApiResponse.partialFill fq (some avg)) cid now).2.order_queue
        = s.order_queue ++
          [(now, mkOrder cid now o.symbol o.side o.order_type (o.quantity - fq)
            (some (order_price_of o refP off)) o.strategy_id)] ∧
      (mkOrder cid now o.symbol o.side o.order_type (o.quantity - fq)
          (some (order_price_of o refP off)) o.strategy_id).quantity + fq = o.quantity ∧
      (mkOrder cid now o.symbol o.side o.order_type (o.quantity - fq)
          (some (order_price_of o refP off)) o.strategy_id).strategy_id = o.strategy_id ∧
      Option.map Order.quantity
          ((execute_order s o refP off (ApiResponse.partialFill fq (some avg)) cid now).2.active_orders
            o.order_id)
        = some o.quantity := by
  have hrem : o.quantity - fq > 0 := by linarith
  have hcid2 : o.order_id ≠ cid := Ne.symm hcid
  refine ⟨?_, ?_, ?_, ?_, ?_⟩
  · simp [execute_order, hrem]
  · simp [execute_order, hrem, submit_order, store, mkOrder, Order.update_fill,
      hcid, hfresh]
  · simp [mkOrder]
  · simp [mkOrder]
  · simp [execute_order, hrem, submit_order, store, mkOrder, Order.update_fill,
      hcid, hcid2, hfresh]

/-- Witness for `c6_partial_fill_conservation`: `limitOrderA` (quantity 1)
partially filled with `Q1 = 1/4` in the empty executor. -/
theorem c6_partial_fill_conservation_witness :
    (0 : ℚ) < 1 / 4 ∧ (1 / 4 : ℚ) < limitOrderA.quantity ∧
      ("child1" : String) ≠ limitOrderA.order_id ∧
      emptyExec.active_orders "child1" = none ∧
      (execute_order emptyExec limitOrderA 0 (1 / 1000)
          (ApiResponse.partialFill (1 / 4) (some 100)) "child1" 1).1 = true := by
  refine ⟨by norm_num, by norm_num [limitOrderA, mkOrder], ?_, rfl, ?_⟩
  · simp [limitOrderA, mkOrder]
  · exact (c6_partial_fill_conservation emptyExec limitOrderA 0 (1 / 1000) (1 / 4) 100 1
      "child1" (by norm_num) (by norm_num [limitOrderA, mkOrder])
      (by simp [limitOrderA, mkOrder]) rfl).1

/-- **C7, confirmed.**  `handle_order_failure` is a no-op for an order
whose type is already (case-insensitively) "market"; for any other failed
order and a fresh fallback id it enqueues exactly one fallback order,
which is a market order, and running `handle_order_failure` on that
fallback — in any state, with any id and clock — changes nothing, so no
fallback loop is possible. -/
theorem c7_single_market_fallback (s : ExecState) (o : Order) (fid : String) (now : ℚ) :
    (lowerStr o.order_type = "market" → handle_order_failure s o fid now = s) ∧
      (lowerStr o.order_type ≠ "market" → s.active_orders fid = none →
        (handle_order_failure s o fid now).order_queue
          = s.order_queue ++ [(now, fallback_of o fid now)]) ∧
      (fallback_of o fid now).order_type = "market" ∧
      ∀ (s2 : ExecState) (fid2 : String) (now2 : ℚ),
        handle_order_failure s2 (fallback_of o fid now) fid2 now2 = s2 := by
  refine ⟨?_, ?_, rfl, ?_⟩
  · intro h
    simp [handle_order_failure, h]
  · intro h hf
    simp [handle_order_failure, h, submit_order, hf, fallback_of, mkOrder]
  · intro s2 fid2 now2
    have hm : lowerStr (fallback_of o fid now).order_type = "market" := by
      show lowerStr "market" = "market"
      decide
    simp [handle_order_failure, hm]

/-- Witness for `c7_single_market_fallback`: the failed limit order
`limitOrderA` in the empty executor gets exactly one market fallback. -/
theorem c7_single_market_fallback_witness :
    lowerStr limitOrderA.order_type ≠ "market" ∧
      emptyExec.active_orders "fb1" = none ∧
      (handle_order_failure emptyExec limitOrderA "fb1" 2).order_queue
        = emptyExec.order_queue ++ [(2, fallback_of limitOrderA "fb1" 2)] := by
  have h : lowerStr limitOrderA.order_type ≠ "market" := by
    show lowerStr "limit" ≠ "market"
    decide
  exact ⟨h, rfl, (c7_single_market_fallback emptyExec limitOrderA "fb1" 2).2.1 h rfl⟩

-- ------------------------------------------------------------------
-- PositionTracker (position_tracker.py).
-- `self.positions: dict` is modelled extensionally as
-- `String → Option Position`; `config.get(key, default)` is mirrored by
-- optional fields plus getter functions applying the source defaults.
-- ------------------------------------------------------------------

/-- The configuration keys `PositionTracker` reads, each optional, with
the source's `config.get` defaults applied by the getters below. -/
structure Config where
  stop_loss_pct : Option ℚ := none
  take_profit_pct : Option ℚ := none
  leverage : Option ℚ := none
  max_position_duration : Option ℚ := none

/-- `config.get("stop_loss_pct", 0.01)` (position_tracker.py line 99). -/
def Config.stopLossPct (c : Config) : ℚ := c.stop_loss_pct.getD (1 / 100)

/-- `config.get("take_profit_pct", 0.02)` (position_tracker.py line 105). -/
def Config.takeProfitPct (c : Config) : ℚ := c.take_profit_pct.getD (2 / 100)

/-- `config.get("leverage", 10)` (position_tracker.py line 112). -/
def Config.leverageVal (c : Config) : ℚ := c.leverage.getD 10

/-- `config.get("max_position_duration", 1800)` (position_tracker.py
line 157). -/
def Config.maxPositionDuration (c : Config) : ℚ := c.max_position_duration.getD 1800

/-- The position dict built by `record_entry` (position_tracker.py lines
70-80). -/
structure Position where
  symbol : String
  side : String
  size : ℚ
  entry_price : ℚ
  entry_time : ℚ
  strategy : String
  stop_loss : ℚ
  take_profit : ℚ
  liquidation_price : ℚ
deriving DecidableEq, Repr

/-- `PositionTracker._calculate_stop_loss` (position_tracker.py lines
98-102). -/
def calculate_stop_loss (c : Config) (side : String) (entry_price : ℚ) : ℚ :=
  if side = "long" then entry_price * (1 - c.stopLossPct)
  else entry_price * (1 + c.stopLossPct)

/-- `PositionTracker._calculate_take_profit` (position_tracker.py lines
104-108). -/
def calculate_take_profit (c : Config) (side : String) (entry_price : ℚ) : ℚ :=
  if side = "long" then entry_price * (1 + c.takeProfitPct)
  else entry_price * (1 - c.takeProfitPct)

/-- `PositionTracker._calculate_liquidation_price` (position_tracker.py
lines 110-115): simplified estimate from leverage with a 0.5% buffer.
`size` is accepted but unused, as in the source. -/
def calculate_liquidation_price (c : Config) (side : String) (entry_price size : ℚ) : ℚ :=
  if side = "long" then entry_price * (1 - 1 / c.leverageVal + 5 / 1000)
  else entry_price * (1 + 1 / c.leverageVal - 5 / 1000)

/-- `PositionTracker._calculate_pnl` (position_tracker.py lines 117-122):
side-aware size-weighted percentage formula. -/
def calculate_pnl (p : Position) (exit_price : ℚ) : ℚ :=
  if p.side = "long" then ((exit_price - p.entry_price) / p.entry_price) * p.size
  else ((p.entry_price - exit_price) / p.entry_price) * p.size

/-- The `Position` dict that `record_entry` constructs (position_tracker.py
lines 70-80); `time.time()` is the `now` parameter. -/
def entry_position (c : Config) (symbol side : String) (size price now : ℚ)
    (strategy : String) : Position :=
  { symbol := symbol
    side := side
    size := size
    entry_price := price
    entry_time := now
    strategy := strategy
    stop_loss := calculate_stop_loss c side price
    take_profit := calculate_take_profit c side price
    liquidation_price := calculate_liquidation_price c side price size }

/-- The closed-trade record appended to `trade_history` by `record_exit`
(position_tracker.py lines 90-94): the position dict extended with
`exit_price`, `exit_time` and `pnl`. -/
structure Trade where
  position : Position
  exit_price : ℚ
  exit_time : ℚ
  pnl : ℚ
deriving DecidableEq, Repr

/-- The mutable book of a `PositionTracker`: the open positions and the
append-only trade history (position_tracker.py lines 12-13). -/
structure TrackerState where
  positions : String → Option Position
  trade_history : List Trade

/-- `PositionTracker.record_entry` (position_tracker.py lines 69-83):
builds the position dict and stores it under its symbol. -/
def record_entry (c : Config) (t : TrackerState) (symbol side : String)
    (size price now : ℚ) (strategy : String) : TrackerState :=
  { t with positions := fun sym =>
      if sym = symbol then some (entry_position c symbol side size price now strategy)
      else t.positions sym }

/-- `PositionTracker.record_exit` (position_tracker.py lines 85-96): pops
the position (no-op when the symbol is untracked), computes the realized
pnl, and appends the closed trade to the history.  Returns the new state
and the trade produced, if any. -/
def record_exit (t : TrackerState) (symbol : String) (exit_price now : ℚ) :
    TrackerState × Option Trade :=
  match t.positions symbol with
  | none => (t, none)
  | some p =>
    let tr : Trade :=
      { position := p
        exit_price := exit_price
        exit_time := now
        pnl := calculate_pnl p exit_price }
    ({ positions := fun sym => if sym = symbol then none else t.positions sym
       trade_history := t.trade_history ++ [tr] }, some tr)

/-- The trigger decision of one `manage_risk` iteration for one open
position at the fetched `current_price` (position_tracker.py lines
136-159): the checks run in source order — stop loss, then take profit,
then liquidation risk, then max duration — and the first that fires
names the close reason. -/
def risk_reason (c : Config) (p : Position) (current_price now : ℚ) : Option String :=
  if (p.side = "long" ∧ current_price ≤ p.stop_loss) ∨
      (p.side = "short" ∧ current_price ≥ p.stop_loss) then
    some "stop loss"
  else if (p.side = "long" ∧ current_price ≥ p.take_profit) ∨
      (p.side = "short" ∧ current_price ≤ p.take_profit) then
    some "take profit"
  else if (p.side = "long" ∧ current_price ≤ p.liquidation_price) ∨
      (p.side = "short" ∧ current_price ≥ p.liquidation_price) then
    some "liquidation risk"
  else if now - p.entry_time > c.maxPositionDuration then
    some "duration limit"
  else
    none

/-- One exchange-side position as returned by `api.fetch_positions`
(position_tracker.py lines 47-56). -/
structure ExchPos where
  side : String
  size : ℚ
  entry_price : ℚ
deriving DecidableEq, Repr

/-- `PositionTracker._sync_positions` (position_tracker.py lines 36-58),
acting on the position book: locally tracked symbols absent from the
exchange are popped (with a warning); exchange symbols untracked locally
are adopted through `record_entry` with strategy tag `"reconciled"`;
symbols tracked on both sides are kept as-is. -/
def sync_positions (c : Config) (positions : String → Option Position)
    (exch : String → Option ExchPos) (now : ℚ) : String → Option Position :=
  fun sym =>
    match exch sym with
    | none => none
    | some ep =>
      match positions sym with
      | some p => some p
      | none => some (entry_position c sym ep.side ep.size ep.entry_price now "reconciled")

/-- Config for the risk-priority scenario: 1% stop loss, 10x leverage
(both equal to the source defaults). -/
def cfgRisk : Config :=
  { stop_loss_pct := some (1 / 100), leverage := some 10 }

/-- A long position of size 1 entered at 20000 under `cfgRisk`:
stop_loss = 19800, liquidation_price = 18100. -/
def longPosA : Position := entry_position cfgRisk "BTCUSDT" "long" 1 20000 0 "s1"

/-- **C1, counterexample.**  At price 18000 the long position has crossed
both its stop-loss (19800) and its liquidation-price (18100) thresholds,
yet `manage_risk` closes it with reason "stop loss": the source checks
stop loss first, so liquidation risk does not pre-empt it. -/
theorem c1_counterexample :
    (18000 : ℚ) ≤ longPosA.stop_loss ∧ (18000 : ℚ) ≤ longPosA.liquidation_price ∧
      risk_reason cfgRisk longPosA 18000 1 = some "stop loss" ∧
      ("stop loss" : String) ≠ "liquidation risk" := by
  refine ⟨?_, ?_, ?_, by decide⟩
  · norm_num [longPosA, entry_position, calculate_stop_loss, cfgRisk, Config.stopLossPct]
  · norm_num [longPosA, entry_position, calculate_liquidation_price, cfgRisk,
      Config.leverageVal]
  · have h : (longPosA.side = "long" ∧ (18000 : ℚ) ≤ longPosA.stop_loss) ∨
        (longPosA.side = "short" ∧ (18000 : ℚ) ≥ longPosA.stop_loss) := by
      left
      refine ⟨rfl, ?_⟩
      norm_num [longPosA, entry_position, calculate_stop_loss, cfgRisk, Config.stopLossPct]
    unfold risk_reason
    rw [if_pos h]

/-- **C1, amended.**  The sweep's actual priority is stop-loss first: any
open position whose current price crosses its stop-loss threshold is
closed with reason "stop loss" — even when the liquidation-price
threshold is crossed simultaneously — so the code's trigger priority is
stop-loss > take-profit > liquidation risk > max-duration. -/
theorem c1_amended (c : Config) (p : Position) (price now : ℚ)
    (h : (p.side = "long" ∧ price ≤ p.stop_loss) ∨
      (p.side = "short" ∧ price ≥ p.stop_loss)) :
    risk_reason c p price now = some "stop loss" := by
  unfold risk_reason
  rw [if_pos h]

/-- Witness for `c1_amended` at the concrete long position and price
18000. -/
theorem c1_amended_witness :
    ((longPosA.side = "long" ∧ (18000 : ℚ) ≤ longPosA.stop_loss) ∨
      (longPosA.side = "short" ∧ (18000 : ℚ) ≥ longPosA.stop_loss)) ∧
      risk_reason cfgRisk longPosA 18000 1 = some "stop loss" := by
  have h : (longPosA.side = "long" ∧ (18000 : ℚ) ≤ longPosA.stop_loss) ∨
      (longPosA.side = "short" ∧ (18000 : ℚ) ≥ longPosA.stop_loss) := by
    left
    refine ⟨rfl, ?_⟩
    norm_num [longPosA, entry_position, calculate_stop_loss, cfgRisk, Config.stopLossPct]
  exact ⟨h, c1_amended cfgRisk longPosA 18000 1 h⟩

/-- The tracker with an empty position book and history. -/
def trackerEmpty : TrackerState := { positions := fun _ => none, trade_history := [] }

/-- Config for the C4 scenario: `stop_loss_pct = 0.01`. -/
def cfgC4 : Config := { stop_loss_pct := some (1 / 100) }

/-- **C4, confirmed.**  Long, size 1, entry 20000, `stop_loss_pct = 0.01`:
`record_entry` stores the position with derived `stop_loss = 19800`, and
a subsequent `record_exit` at 19750 books a trade with realized
`pnl = (19750 − 20000)/20000 × 1 = −0.0125` under the side-aware
size-weighted percentage formula. -/
theorem c4_scenario :
    (record_entry cfgC4 trackerEmpty "BTC/USDT" "long" 1 20000 0 "strat").positions "BTC/USDT"
        = some (entry_position cfgC4 "BTC/USDT" "long" 1 20000 0 "strat") ∧
      (entry_position cfgC4 "BTC/USDT" "long" 1 20000 0 "strat").stop_loss = 19800 ∧
      Option.map Trade.pnl
          (record_exit (record_entry cfgC4 trackerEmpty "BTC/USDT" "long" 1 20000 0 "strat")
            "BTC/USDT" 19750 5).2
        = some (-0.0125) := by
  refine ⟨?_, ?_, ?_⟩
  · simp [record_entry]
  · norm_num [entry_position, calculate_stop_loss, cfgC4, Config.stopLossPct]
  · simp [record_exit, record_entry, calculate_pnl, entry_position]
    norm_num

/-- **C8, confirmed.**  After `_sync_positions` against exchange truth:
a locally tracked symbol absent from the exchange is removed from the
book; an exchange symbol untracked locally is adopted as a position with
strategy tag "reconciled" and is present in the book that subsequent
`manage_risk` sweeps iterate over. -/
theorem c8_reconcile (c : Config) (pos : String → Option Position)
    (exch : String → Option ExchPos) (now : ℚ) (sym : String) :
    ((pos sym).isSome → exch sym = none → sync_positions c pos exch now sym = none) ∧
      ∀ ep : ExchPos, exch sym = some ep → pos sym = none →
        sync_positions c pos exch now sym
            = some (entry_position c sym ep.side ep.size ep.entry_price now "reconciled") ∧
          (entry_position c sym ep.side ep.size ep.entry_price now "reconciled").strategy
            = "reconciled" ∧
          (sync_positions c pos exch now sym).isSome := by
  constructor
  · intro _ he
    simp [sync_positions, he]
  · intro ep he hp
    refine ⟨?_, rfl, ?_⟩ <;> simp [sync_positions, he, hp]

/-- A one-position exchange snapshot for the reconciliation witness. -/
def exchSnapshotA : String → Option ExchPos :=
  fun sym => if sym = "ETHUSDT" then some { side := "long", size := 2, entry_price := 1000 }
  else none

/-- Witness for `c8_reconcile`: an exchange-side ETHUSDT position absent
from the empty local book is adopted with tag "reconciled". -/
theorem c8_reconcile_witness :
    exchSnapshotA "ETHUSDT" = some { side := "long", size := 2, entry_price := 1000 } ∧
      trackerEmpty.positions "ETHUSDT" = none ∧
      sync_positions cfgRisk trackerEmpty.positions exchSnapshotA 7 "ETHUSDT"
        = some (entry_position cfgRisk "ETHUSDT" "long" 2 1000 7 "reconciled") := by
  have he : exchSnapshotA "ETHUSDT"
      = some { side := "long", size := 2, entry_price := 1000 } := by
    simp [exchSnapshotA]
  exact ⟨he, rfl,
    ((c8_reconcile cfgRisk trackerEmpty.positions exchSnapshotA 7 "ETHUSDT").2
      { side := "long", size := 2, entry_price := 1000 } he rfl).1⟩

-- ------------------------------------------------------------------
-- CrossExchangeArbitrageStrategy.check_and_trade, per-symbol price
-- guard and dispatch (strategies/cross_exchange_arbitrage_strategy.py
-- lines 57-75; the sibling variant at
-- cross_exchange_arbitrage_strategy.py lines 62-80 differs only in
-- rounding the quantity to 6 decimals before dispatch).
-- ------------------------------------------------------------------

/-- What one `check_and_trade` iteration does for one symbol once both
tickers arrived: abandon-and-log (`skipInvalid`, the `continue` under the
invalid-price warning), no arbitrage (spread below threshold), or
dispatch of the cross-venue order pair with the computed quantity. -/
inductive ArbAction where
  | skipInvalid
  | noArb
  | trade (qty : ℚ)
deriving DecidableEq, Repr

/-- The per-symbol body of `check_and_trade` (strategies/
cross_exchange_arbitrage_strategy.py lines 58-75): `p_bid` and `b_ask`
are `tick.get(...)`, so `Option`; the guard is Python's
`not p_bid or not b_ask or b_ask <= 0`, where `not x` is true for `None`
and for `0`; past the guard, `spread = (p_bid − b_ask)/b_ask` is compared
with the threshold, a trade dispatching `balance × risk_pct / b_ask`. -/
def check_symbol (p_bid b_ask : Option ℚ) (thresh balance risk_pct : ℚ) : ArbAction :=
  match p_bid, b_ask with
  | some pb, some ba =>
    if pb = 0 ∨ ba = 0 ∨ ba ≤ 0 then ArbAction.skipInvalid
    else if (pb - ba) / ba ≥ thresh then ArbAction.trade (balance * risk_pct / ba)
    else ArbAction.noArb
  | _, _ => ArbAction.skipInvalid

/-- **C9, counterexample.**  A strictly negative Phemex bid is
non-positive but does not short-circuit: Python's truthiness guard
`not p_bid` only catches `None` and `0`, so with bid −1 the attempt is
not abandoned under the invalid-price warning — it proceeds to the
spread comparison (landing in the unlogged no-arbitrage branch). -/
theorem c9_counterexample :
    check_symbol (some (-1)) (some 100) (2 / 1000) 1000 (1 / 10) = ArbAction.noArb ∧
      ArbAction.noArb ≠ ArbAction.skipInvalid := by
  constructor
  · norm_num [check_symbol]
  · decide

/-- **C9, amended.**  The attempt short-circuits to no route — abandoned
and logged, nothing dispatched — when the bid is missing or zero, or the
ask is missing, zero, or negative.  A strictly negative bid escapes the
guard; still, no order is dispatched for it as long as the configured
threshold is at least −1, because its spread is then below threshold. -/
theorem c9_amended (pb ba : Option ℚ) (thresh balance risk_pct : ℚ) :
    ((pb = none ∨ pb = some 0 ∨ ba = none ∨ ∃ x, ba = some x ∧ x ≤ 0) →
      check_symbol pb ba thresh balance risk_pct = ArbAction.skipInvalid) ∧
      ∀ x : ℚ, pb = some x → x ≤ 0 → -1 ≤ thresh →
        ∀ q : ℚ, check_symbol pb ba thresh balance risk_pct ≠ ArbAction.trade q := by
  constructor
  · rintro (rfl | rfl | rfl | ⟨x, rfl, hx⟩)
    · simp [check_symbol]
    · cases ba <;> simp [check_symbol]
    · cases pb <;> simp [check_symbol]
    · cases pb <;> simp [check_symbol, hx]
  · rintro x rfl hx hth q
    cases ba with
    | none => simp [check_symbol]
    | some y =>
      by_cases hy : y ≤ 0
      · simp [check_symbol, hy]
      · push_neg at hy
        by_cases hx0 : x = 0
        · simp [check_symbol, hx0]
        · have hxneg : x < 0 := lt_of_le_of_ne hx hx0
          have hspread : (x - y) / y < -1 := by
            rw [div_lt_iff₀ hy]
            linarith
          have hlt : ¬((x - y) / y ≥ thresh) := by
            push_neg
            calc (x - y) / y < -1 := hspread
              _ ≤ thresh := hth
          simp [check_symbol, hx0, hy.ne', not_le.mpr hy, hlt]

/-- Witness for `c9_amended`: a zero bid short-circuits; a negative bid
with the default 0.2% threshold dispatches nothing. -/
theorem c9_amended_witness :
    check_symbol (some 0) (some 100) (2 / 1000) 1000 (1 / 10) = ArbAction.skipInvalid ∧
      check_symbol (some (-1)) (some 100) (2 / 1000) 1000 (1 / 10) ≠ ArbAction.trade 1 := by
  constructor
  · exact (c9_amended (some 0) (some 100) (2 / 1000) 1000 (1 / 10)).1 (Or.inr (Or.inl rfl))
  · exact (c9_amended (some (-1)) (some 100) (2 / 1000) 1000 (1 / 10)).2 (-1) rfl
      (by norm_num) (by norm_num) 1
